import Mathlib

/-!
Verification development for the DWSIM parametric-screening script
(`run_screening.py`).  The script drives an external simulation engine
through an automation interface: it builds one flowsheet per parameter
combination (a PFR reactor case or a distillation-column case), solves it,
extracts scalar results into a Python dict, accumulates the dicts over the
nested parameter loops, and finally writes one CSV whose header is the
sorted union of all dict keys.

The embedding below models the external engine as a deterministic oracle
(`Engine`): for each parameter combination it fixes which engine calls
succeed or raise, with what message, and what numeric values the getters
return.  Python dicts become ordered association lists (`Rec`) over the
finite set of field names the script ever uses (`Key`), floats become
rationals, and exceptions become `Except`.  Engine-side resource events
(flowsheet creation / closing / solving) are traced explicitly (`Event`)
so that resource-discipline properties can be stated.
-/

set_option maxHeartbeats 1000000

namespace Screening

/-- The field names that `run_screening.py` ever stores in a result dict. -/
inductive Key where
  | case_type
  | volume_m3
  | temperature_c
  | pressure_bar
  | success
  | error
  | traceback
  | conversion
  | outlet_B_flow_mol_s
  | outlet_temperature_c
  | heat_duty_kW
  | outlet_pressure_bar
  | n_stages
  | feed_stage
  | reflux_r
  | distillate_rate
  | distillate_purity_light
  | bottoms_purity_heavy
  | condenser_duty_kW
  | reboiler_duty_kW
  | condenser_temp_c
  deriving DecidableEq

/-- The Python string spelling of each field name, as it appears in the
CSV header written by `export_results`. -/
def Key.name : Key → String
  | .case_type => "case_type"
  | .volume_m3 => "volume_m3"
  | .temperature_c => "temperature_c"
  | .pressure_bar => "pressure_bar"
  | .success => "success"
  | .error => "error"
  | .traceback => "traceback"
  | .conversion => "conversion"
  | .outlet_B_flow_mol_s => "outlet_B_flow_mol_s"
  | .outlet_temperature_c => "outlet_temperature_c"
  | .heat_duty_kW => "heat_duty_kW"
  | .outlet_pressure_bar => "outlet_pressure_bar"
  | .n_stages => "n_stages"
  | .feed_stage => "feed_stage"
  | .reflux_r => "reflux_ratio"
  | .distillate_rate => "distillate_rate"
  | .distillate_purity_light => "distillate_purity_light"
  | .bottoms_purity_heavy => "bottoms_purity_heavy"
  | .condenser_duty_kW => "condenser_duty_kW"
  | .reboiler_duty_kW => "reboiler_duty_kW"
  | .condenser_temp_c => "condenser_temp_c"

/-- Values stored in a result dict: strings, floats (modelled as rationals),
ints, booleans, and Python `None`. -/
inductive Value where
  | vstr (s : String)
  | vnum (q : ℚ)
  | vint (n : ℤ)
  | vbool (b : Bool)
  | vnone
  deriving DecidableEq

/-- A result dict: an insertion-ordered association list, as Python dicts
are insertion-ordered. -/
abbrev Rec := List (Key × Value)

/-- Python dict assignment `d[k] = v`: replace the value of an existing
key in place (keeping its position), otherwise append the new pair. -/
def Rec.set : Rec → Key → Value → Rec
  | [], k, v => [(k, v)]
  | (k2, v2) :: rest, k, v =>
    if k2 = k then (k, v) :: rest else (k2, v2) :: Rec.set rest k v

/-- Python dict lookup `d.get(k)`: the value at the first matching key. -/
def Rec.get? (r : Rec) (k : Key) : Option Value :=
  (r.find? (fun p => p.1 = k)).map (fun p => p.2)

/-- Python `d.update(kvs)`: assign each pair in order. -/
def Rec.update (r : Rec) (kvs : List (Key × Value)) : Rec :=
  kvs.foldl (fun a kv => Rec.set a kv.1 kv.2) r

/-- The key list of a dict, in insertion order (Python `d.keys()`). -/
def Rec.keys (r : Rec) : List Key :=
  r.map (fun p => p.1)

/-- Engine-side resource events observable during one case: the
`CreateFlowsheet` call (with whether it succeeded), the `SolveFlowsheet`
call, and a hypothetical close/release of the flowsheet. -/
inductive Event where
  | createFlowsheet (ok : Bool)
  | solveFlowsheet
  | closeFlowsheet
  deriving DecidableEq

/-- Deterministic oracle for one PFR case: which phase of
`simulate_pfr` fails (if any) and what the engine getters return.
`createOk`, `compoundsOk`, `ppOk` are the boolean outcomes of
`create_flowsheet`, `setup_compounds` and `setup_property_package`
(each catches its own exceptions and returns a bool).  `buildFail` is an
exception raised by one of the stream/reactor/reaction build calls,
`solveFail` one raised by `SolveFlowsheet`, `getFail` one raised by the
result getters; `none` means the phase completes. -/
structure PfrOutcome where
  createOk : Bool
  compoundsOk : Bool
  ppOk : Bool
  buildFail : Option String
  solveFail : Option String
  molarFlow : ℚ
  moleFractions : List ℚ
  outletTempK : ℚ
  deltaQ : ℚ
  outletPressurePa : ℚ
  getFail : Option String
  deriving DecidableEq

/-- Deterministic oracle for one distillation-column case, in the same
style as `PfrOutcome`. -/
structure ColumnOutcome where
  createOk : Bool
  compoundsOk : Bool
  ppOk : Bool
  buildFail : Option String
  solveFail : Option String
  distFractions : List ℚ
  botFractions : List ℚ
  condenserDuty : ℚ
  reboilerDuty : ℚ
  condenserTempK : ℚ
  getFail : Option String
  deriving DecidableEq

/-- The external engine, modelled as a deterministic oracle: for each
parameter combination it fixes the outcome of the corresponding case. -/
structure Engine where
  pfr : ℚ → ℚ → ℚ → PfrOutcome
  column : ℕ → ℕ → ℚ → ℚ → ColumnOutcome

/-- The result dict of `simulate_pfr` as initialised at the top of the
function, in source order. -/
def pfrBase (volume_m3 temperature_c pressure_bar : ℚ) : Rec :=
  [(.case_type, .vstr "PFR"),
   (.volume_m3, .vnum volume_m3),
   (.temperature_c, .vnum temperature_c),
   (.pressure_bar, .vnum pressure_bar),
   (.success, .vbool false),
   (.error, .vnone)]

/-- The text `traceback.format_exc()` would produce for an exception with
the given message (the script stores it under the `traceback` key). -/
def tracebackText (msg : String) : String :=
  "Traceback (most recent call last): " ++ msg

/-- The inner result-extraction block of `simulate_pfr` (its own
`try/except`): on success it updates the dict with `success = True` and
the five output scalars; on a getter failure, or an index error on the
mole-fraction array, it records the error and leaves `success = False`. -/
def pfr_extract (o : PfrOutcome) (base : Rec) : Rec :=
  match o.getFail with
  | some msg =>
      Rec.set (Rec.set base .error (.vstr ("Error extracting results: " ++ msg)))
        .traceback (.vstr (tracebackText msg))
  | none =>
      match o.moleFractions.get? 1 with
      | none =>
          Rec.set (Rec.set base .error
              (.vstr "Error extracting results: index out of range"))
            .traceback (.vstr (tracebackText "index out of range"))
      | some fracB =>
          Rec.update base
            [(.success, .vbool true),
             (.conversion, .vnum (1/2)),
             (.outlet_B_flow_mol_s, .vnum ((o.molarFlow * fracB) / 3600)),
             (.outlet_temperature_c, .vnum (o.outletTempK - 27315/100)),
             (.heat_duty_kW, .vnum (o.deltaQ / 1000)),
             (.outlet_pressure_bar, .vnum (o.outletPressurePa / 101325))]

/-- The body of the outer `try` of `simulate_pfr`: the early-return bool
checks, the build calls, the solve, then the (self-handling) extraction
block.  An `Except.error` is an exception escaping to the outer handler;
the event list records engine-side resource calls made along the way. -/
def pfr_try (o : PfrOutcome) (base : Rec) : Except String Rec × List Event :=
  if !o.createOk then
    (.ok (Rec.set base .error (.vstr "Failed to create flowsheet")),
     [.createFlowsheet false])
  else if !o.compoundsOk then
    (.ok (Rec.set base .error (.vstr "Failed to add compounds")),
     [.createFlowsheet true])
  else if !o.ppOk then
    (.ok (Rec.set base .error (.vstr "Failed to setup property package")),
     [.createFlowsheet true])
  else
    match o.buildFail with
    | some msg => (.error msg, [.createFlowsheet true])
    | none =>
        match o.solveFail with
        | some msg => (.error msg, [.createFlowsheet true, .solveFlowsheet])
        | none =>
            (.ok (pfr_extract o base), [.createFlowsheet true, .solveFlowsheet])

/-- `simulate_pfr(volume_m3, temperature_c, pressure_bar)`: runs the body
under the outer `except Exception` handler, which stores the message and
traceback in the (unmodified) base dict and returns it.  Returns the
result dict together with the engine-side event trace of the case. -/
def simulate_pfr (eng : Engine) (volume_m3 temperature_c pressure_bar : ℚ) :
    Rec × List Event :=
  match pfr_try (eng.pfr volume_m3 temperature_c pressure_bar)
      (pfrBase volume_m3 temperature_c pressure_bar) with
  | (.ok r, tr) => (r, tr)
  | (.error msg, tr) =>
      (Rec.set (Rec.set (pfrBase volume_m3 temperature_c pressure_bar)
          .error (.vstr msg)) .traceback (.vstr (tracebackText msg)), tr)

/-- The result dict of `simulate_distillation` as initialised at the top
of the function, in source order. -/
def distBase (n_stages feed_stage : ℕ) (reflux distillate_rate_kmol_h : ℚ) : Rec :=
  [(.case_type, .vstr "Distillation"),
   (.n_stages, .vint n_stages),
   (.feed_stage, .vint feed_stage),
   (.reflux_r, .vnum reflux),
   (.distillate_rate, .vnum distillate_rate_kmol_h),
   (.success, .vbool false),
   (.error, .vnone)]

/-- The inner result-extraction block of `simulate_distillation`: the two
purity reads are guarded by length checks (defaulting to 0.0), the duty
reads take absolute values, and any getter failure is recorded with
`success` left `False`. -/
def dist_extract (o : ColumnOutcome) (base : Rec) : Rec :=
  match o.getFail with
  | some msg =>
      Rec.set (Rec.set base .error (.vstr ("Error extracting results: " ++ msg)))
        .traceback (.vstr (tracebackText msg))
  | none =>
      Rec.update base
        [(.success, .vbool true),
         (.distillate_purity_light, .vnum ((o.distFractions.get? 0).getD 0)),
         (.bottoms_purity_heavy, .vnum ((o.botFractions.get? 1).getD 0)),
         (.condenser_duty_kW, .vnum |o.condenserDuty / 1000|),
         (.reboiler_duty_kW, .vnum |o.reboilerDuty / 1000|),
         (.condenser_temp_c, .vnum (o.condenserTempK - 27315/100))]

/-- The body of the outer `try` of `simulate_distillation`, in the same
style as `pfr_try`. -/
def dist_try (o : ColumnOutcome) (base : Rec) : Except String Rec × List Event :=
  if !o.createOk then
    (.ok (Rec.set base .error (.vstr "Failed to create flowsheet")),
     [.createFlowsheet false])
  else if !o.compoundsOk then
    (.ok (Rec.set base .error (.vstr "Failed to add compounds")),
     [.createFlowsheet true])
  else if !o.ppOk then
    (.ok (Rec.set base .error (.vstr "Failed to setup property package")),
     [.createFlowsheet true])
  else
    match o.buildFail with
    | some msg => (.error msg, [.createFlowsheet true])
    | none =>
        match o.solveFail with
        | some msg => (.error msg, [.createFlowsheet true, .solveFlowsheet])
        | none =>
            (.ok (dist_extract o base), [.createFlowsheet true, .solveFlowsheet])

/-- `simulate_distillation(n_stages, feed_stage, reflux_ratio,
distillate_rate_kmol_h)` with its outer exception handler and event
trace. -/
def simulate_distillation (eng : Engine) (n_stages feed_stage : ℕ)
    (reflux distillate_rate_kmol_h : ℚ) : Rec × List Event :=
  match dist_try (eng.column n_stages feed_stage reflux distillate_rate_kmol_h)
      (distBase n_stages feed_stage reflux distillate_rate_kmol_h) with
  | (.ok r, tr) => (r, tr)
  | (.error msg, tr) =>
      (Rec.set (Rec.set (distBase n_stages feed_stage reflux distillate_rate_kmol_h)
          .error (.vstr msg)) .traceback (.vstr (tracebackText msg)), tr)

/-- The nested `for`-loop pattern of the sweep drivers: for each `x` in
the outer grid and each `y` in the inner grid, in declared order, produce
`f x y` and append it. -/
def cartMap {α β γ : Type} (f : α → β → γ) : List α → List β → List γ
  | [], _ => []
  | x :: xs, ys => ys.map (f x) ++ cartMap f xs ys

/-- `run_pfr_parametric_sweep` generalised over the two grids: one
`simulate_pfr` call per combination, pressure left at its default 1.0. -/
def pfr_sweep (eng : Engine) (volumes temperatures : List ℚ) : List Rec :=
  cartMap (fun v t => (simulate_pfr eng v t 1).1) volumes temperatures

/-- The volume grid hard-coded in `run_pfr_parametric_sweep`. -/
def pfrVolumes : List ℚ := [1/2, 1, 2, 5]

/-- The temperature grid hard-coded in `run_pfr_parametric_sweep`. -/
def pfrTemperatures : List ℚ := [80, 100, 120, 150]

/-- `run_pfr_parametric_sweep`: the fixed 4 × 4 volume/temperature grid. -/
def run_pfr_parametric_sweep (eng : Engine) : List Rec :=
  pfr_sweep eng pfrVolumes pfrTemperatures

/-- `run_distillation_parametric_sweep` generalised over the two grids:
the feed stage is computed as `max(3, n_stages // 2)` and the distillate
rate left at its default 50.0. -/
def dist_sweep (eng : Engine) (stages : List ℕ) (refluxes : List ℚ) : List Rec :=
  cartMap (fun n rr => (simulate_distillation eng n (max 3 (n / 2)) rr 50).1)
    stages refluxes

/-- The stage grid hard-coded in `run_distillation_parametric_sweep`. -/
def distStages : List ℕ := [8, 10, 15, 20]

/-- The reflux-ratio grid hard-coded in `run_distillation_parametric_sweep`. -/
def distRefluxes : List ℚ := [3/2, 2, 3, 4]

/-- `run_distillation_parametric_sweep`: the fixed 4 × 4 grid. -/
def run_distillation_parametric_sweep (eng : Engine) : List Rec :=
  dist_sweep eng distStages distRefluxes

/-- Concatenation of the per-record key lists over a result collection
(the loop `for result in self.results: all_keys.update(result.keys())`,
before deduplication). -/
def keysUnion : List Rec → List Key
  | [] => []
  | r :: rest => Rec.keys r ++ keysUnion rest

/-- The set `all_keys` of `export_results`: the distinct keys occurring
in any record. -/
def collectKeys (rs : List Rec) : List Key :=
  (keysUnion rs).dedup

/-- The comparison used by `sorted(all_keys)`: lexicographic order on the
Python string spelling of the field names. -/
def keyLe (a b : Key) : Prop := a.name ≤ b.name

instance : DecidableRel keyLe := fun a b =>
  inferInstanceAs (Decidable (a.name ≤ b.name))

instance : IsTotal Key keyLe := ⟨fun a b => le_total a.name b.name⟩

instance : IsTrans Key keyLe := ⟨fun _ _ _ hab hbc => le_trans hab hbc⟩

/-- How the `csv` module prints one cell: strings verbatim, numbers via
`str`, booleans as `True`/`False`, and `None` as the empty string. -/
def Value.toCell : Value → String
  | .vstr s => s
  | .vnum q => toString q
  | .vint n => toString n
  | .vbool b => if b then "True" else "False"
  | .vnone => ""

/-- A written CSV file: the header row (as keys; the file holds their
`Key.name` spellings) and the data rows. -/
structure Csv where
  header : List Key
  rows : List (List String)
  deriving DecidableEq

/-- `export_results`: returns without writing anything when the result
collection is empty; otherwise sorts the union of all keys and writes the
header plus one row per record in collection order, with fields absent
from a record written as empty cells (the `DictWriter` default). -/
def export_results (rs : List Rec) : Option Csv :=
  if rs.isEmpty then none
  else
    let fieldnames := List.insertionSort keyLe (collectKeys rs)
    some { header := fieldnames,
           rows := rs.map (fun r =>
             fieldnames.map (fun k => Value.toCell ((Rec.get? r k).getD .vnone))) }

/-- The file at the output path after `export_results` runs, given its
previous content: the empty-collection early return leaves the file
untouched; otherwise `open(filename, 'w')` replaces it. -/
def export_to_file (rs : List Rec) (prev : Option Csv) : Option Csv :=
  match export_results rs with
  | none => prev
  | some c => some c

/-- Process-level setup oracle: whether the DWSIM assemblies load, and
whether the `Automation3()` constructor raises. -/
structure Session where
  assembliesOk : Bool
  automationInitFail : Option String

/-- The full result collection of one run of `main`: the PFR sweep
followed by the distillation sweep. -/
def full_results (eng : Engine) : List Rec :=
  run_pfr_parametric_sweep eng ++ run_distillation_parametric_sweep eng

/-- The body of `main`'s `try`: creating the automation interface may
raise (caught by `main`, which then exits with code 1); otherwise both
sweeps run to completion and the results are exported. -/
def main_body (s : Session) (eng : Engine) :
    Except String (List Rec × Option Csv) :=
  match s.automationInitFail with
  | some msg => .error msg
  | none => .ok (full_results eng, export_results (full_results eng))

/-- The exit code of `main`: 0 when the body completes, 1 when the
handler catches a fatal error (`sys.exit(1)`). -/
def mainExitCode (s : Session) (eng : Engine) : ℕ :=
  match main_body s eng with
  | .ok _ => 0
  | .error _ => 1

/-- The exit code of the whole script: assembly loading failure exits
with code 1 before `main` runs; otherwise `main`'s exit code. -/
def scriptExitCode (s : Session) (eng : Engine) : ℕ :=
  if s.assembliesOk then mainExitCode s eng else 1

/-- A PFR-case outcome in which every engine call succeeds. -/
def okPfrOutcome : PfrOutcome :=
  { createOk := true, compoundsOk := true, ppOk := true,
    buildFail := none, solveFail := none,
    molarFlow := 50, moleFractions := [1/2, 1/2],
    outletTempK := 37315/100, deltaQ := 2000, outletPressurePa := 101325,
    getFail := none }

/-- A column-case outcome in which every engine call succeeds. -/
def okColumnOutcome : ColumnOutcome :=
  { createOk := true, compoundsOk := true, ppOk := true,
    buildFail := none, solveFail := none,
    distFractions := [9/10, 1/10], botFractions := [1/10, 9/10],
    condenserDuty := -3000, reboilerDuty := 3500, condenserTempK := 35315/100,
    getFail := none }

/-- An engine on which every case of both sweeps succeeds. -/
def okEngine : Engine :=
  { pfr := fun _ _ _ => okPfrOutcome,
    column := fun _ _ _ _ => okColumnOutcome }

/-- An engine on which `CreateFlowsheet` fails for every case. -/
def createFailEngine : Engine :=
  { pfr := fun _ _ _ => { okPfrOutcome with createOk := false },
    column := fun _ _ _ _ => { okColumnOutcome with createOk := false } }

/-- An engine on which every case raises during the build phase. -/
def raiseEngine : Engine :=
  { pfr := fun _ _ _ => { okPfrOutcome with buildFail := some "COM error 0x80004005" },
    column := fun _ _ _ _ => { okColumnOutcome with buildFail := some "solver not ready" } }

/-- The same behaviour as `raiseEngine` but with different exception
texts, to exercise the run-to-run comparison. -/
def raiseEngine2 : Engine :=
  { pfr := fun _ _ _ => { okPfrOutcome with buildFail := some "COM error 0x80070057" },
    column := fun _ _ _ _ => { okColumnOutcome with buildFail := some "solver busy" } }

/-- Whether an optional field value is a stored boolean (the shape of the
`success` field). -/
def isBoolValue : Option Value → Bool
  | some (Value.vbool _) => true
  | _ => false

/-- Whether an optional field value is a stored `None` or a stored string
(the shape of the `error` field: absent message or message text). -/
def isErrValue : Option Value → Bool
  | some Value.vnone => true
  | some (Value.vstr _) => true
  | _ => false

/-- Whether an event is a `CreateFlowsheet` call (successful or not). -/
def isCreate : Event → Bool
  | .createFlowsheet _ => true
  | _ => false

/-- Concatenation of per-case event traces, in sweep order. -/
def traceCat : List (List Event) → List Event
  | [] => []
  | tr :: rest => tr ++ traceCat rest

/-- The engine-side event trace of one full run of `main`: the traces of
the 16 PFR cases followed by the traces of the 16 column cases. -/
def full_trace (eng : Engine) : List Event :=
  traceCat (cartMap (fun v t => (simulate_pfr eng v t 1).2)
      pfrVolumes pfrTemperatures) ++
  traceCat (cartMap (fun n rr => (simulate_distillation eng n (max 3 (n / 2)) rr 50).2)
      distStages distRefluxes)

/-- Erase the values stored under the `error` and `traceback` keys (the
only fields holding exception text), keeping every other field intact.
Two records with the same scrub agree on all non-error fields. -/
def Rec.scrub (r : Rec) : Rec :=
  r.map (fun pr =>
    if pr.1 = Key.error ∨ pr.1 = Key.traceback then (pr.1, Value.vnone) else pr)

/-- Two PFR-case outcomes that an observer of the non-error CSV fields
cannot tell apart: the same success/failure pattern in every phase and
the same getter values; only exception texts may differ. -/
def PfrOutcome.agrees (o1 o2 : PfrOutcome) : Prop :=
  o1.createOk = o2.createOk ∧ o1.compoundsOk = o2.compoundsOk ∧
  o1.ppOk = o2.ppOk ∧ o1.buildFail.isSome = o2.buildFail.isSome ∧
  o1.solveFail.isSome = o2.solveFail.isSome ∧
  o1.getFail.isSome = o2.getFail.isSome ∧
  o1.molarFlow = o2.molarFlow ∧ o1.moleFractions = o2.moleFractions ∧
  o1.outletTempK = o2.outletTempK ∧ o1.deltaQ = o2.deltaQ ∧
  o1.outletPressurePa = o2.outletPressurePa

/-- The column-case analogue of `PfrOutcome.agrees`. -/
def ColumnOutcome.agrees (o1 o2 : ColumnOutcome) : Prop :=
  o1.createOk = o2.createOk ∧ o1.compoundsOk = o2.compoundsOk ∧
  o1.ppOk = o2.ppOk ∧ o1.buildFail.isSome = o2.buildFail.isSome ∧
  o1.solveFail.isSome = o2.solveFail.isSome ∧
  o1.getFail.isSome = o2.getFail.isSome ∧
  o1.distFractions = o2.distFractions ∧ o1.botFractions = o2.botFractions ∧
  o1.condenserDuty = o2.condenserDuty ∧ o1.reboilerDuty = o2.reboilerDuty ∧
  o1.condenserTempK = o2.condenserTempK

/-- Two deterministic engines with the same behaviour up to exception
text: every case has the same outcome pattern and getter values. -/
def Engine.agrees (e1 e2 : Engine) : Prop :=
  (∀ v t p : ℚ, PfrOutcome.agrees (e1.pfr v t p) (e2.pfr v t p)) ∧
  (∀ (n f : ℕ) (rr d : ℚ),
    ColumnOutcome.agrees (e1.column n f rr d) (e2.column n f rr d))

theorem Rec.get?_set_eq (r : Rec) (k : Key) (v : Value) :
    Rec.get? (Rec.set r k v) k = some v := by
  induction r with
  | nil => simp [Rec.set, Rec.get?, List.find?]
  | cons p rest ih =>
    obtain ⟨k2, v2⟩ := p
    by_cases h : k2 = k
    · simp [Rec.set, h, Rec.get?, List.find?]
    · simpa [Rec.set, h, Rec.get?, List.find?] using ih

theorem Rec.get?_set_ne (r : Rec) (k k' : Key) (v : Value) (h : k' ≠ k) :
    Rec.get? (Rec.set r k v) k' = Rec.get? r k' := by
  induction r with
  | nil => simp [Rec.set, Rec.get?, List.find?, Ne.symm h]
  | cons p rest ih =>
    obtain ⟨k2, v2⟩ := p
    by_cases h2 : k2 = k
    · subst h2
      simp [Rec.set, Rec.get?, List.find?, Ne.symm h]
    · by_cases h3 : k2 = k'
      · subst h3
        simp [Rec.set, h2, Rec.get?, List.find?]
      · simpa [Rec.set, h2, Rec.get?, List.find?, h3] using ih

theorem Rec.keys_set (r : Rec) (k : Key) (v : Value) :
    Rec.keys (Rec.set r k v) =
      if k ∈ Rec.keys r then Rec.keys r else Rec.keys r ++ [k] := by
  induction r with
  | nil => simp [Rec.set, Rec.keys]
  | cons p rest ih =>
    obtain ⟨k2, v2⟩ := p
    by_cases h : k2 = k
    · simp [Rec.set, h, Rec.keys]
    · have hne : ¬ k = k2 := fun hh => h hh.symm
      have hkeys : Rec.keys ((k2, v2) :: Rec.set rest k v)
          = k2 :: Rec.keys (Rec.set rest k v) := rfl
      have hkeys2 : Rec.keys ((k2, v2) :: rest) = k2 :: Rec.keys rest := rfl
      simp only [Rec.set, if_neg h, hkeys, hkeys2, ih]
      by_cases hmem : k ∈ Rec.keys rest
      · simp [hmem, hne]
      · simp [hmem, hne]

theorem pfr_rec_spec (eng : Engine) (v t p : ℚ) (r : Rec)
    (hr : r = (simulate_pfr eng v t p).1) :
    Rec.get? r .case_type = some (.vstr "PFR") ∧
    Rec.get? r .volume_m3 = some (.vnum v) ∧
    Rec.get? r .temperature_c = some (.vnum t) ∧
    Rec.get? r .pressure_bar = some (.vnum p) ∧
    isBoolValue (Rec.get? r .success) = true ∧
    isErrValue (Rec.get? r .error) = true ∧
    (Rec.get? r .success = some (.vbool false) →
      Rec.get? r .conversion = none ∧
      Rec.get? r .outlet_B_flow_mol_s = none ∧
      Rec.get? r .outlet_temperature_c = none ∧
      Rec.get? r .heat_duty_kW = none ∧
      Rec.get? r .outlet_pressure_bar = none) ∧
    (Rec.get? r .success = some (.vbool true) →
      Rec.get? r .conversion = some (.vnum (1/2))) := by
  subst hr
  rcases h : eng.pfr v t p with ⟨co, cp, pp, bf, sf, mf, mfr, tK, dq, pPa, gf⟩
  simp only [simulate_pfr, pfr_try, pfr_extract, h]
  cases co with
  | false =>
    simp [pfrBase, Rec.update, Rec.set, Rec.get?, List.find?, isBoolValue, isErrValue]
  | true =>
  cases cp with
  | false =>
    simp [pfrBase, Rec.update, Rec.set, Rec.get?, List.find?, isBoolValue, isErrValue]
  | true =>
  cases pp with
  | false =>
    simp [pfrBase, Rec.update, Rec.set, Rec.get?, List.find?, isBoolValue, isErrValue]
  | true =>
  cases bf with
  | some msg =>
    simp [pfrBase, tracebackText, Rec.update, Rec.set, Rec.get?, List.find?,
      isBoolValue, isErrValue]
  | none =>
  cases sf with
  | some msg =>
    simp [pfrBase, tracebackText, Rec.update, Rec.set, Rec.get?, List.find?,
      isBoolValue, isErrValue]
  | none =>
  cases gf with
  | some msg =>
    simp [pfrBase, tracebackText, Rec.update, Rec.set, Rec.get?, List.find?,
      isBoolValue, isErrValue]
  | none =>
  cases hm : mfr.get? 1 with
  | none =>
    simp [hm, pfrBase, tracebackText, Rec.update, Rec.set, Rec.get?, List.find?,
      isBoolValue, isErrValue]
  | some fb =>
    simp [hm, pfrBase, Rec.update, Rec.set, Rec.get?, List.find?,
      isBoolValue, isErrValue]

theorem dist_rec_spec (eng : Engine) (n f : ℕ) (rr d : ℚ) (r : Rec)
    (hr : r = (simulate_distillation eng n f rr d).1) :
    Rec.get? r .case_type = some (.vstr "Distillation") ∧
    Rec.get? r .n_stages = some (.vint n) ∧
    Rec.get? r .feed_stage = some (.vint f) ∧
    Rec.get? r .reflux_r = some (.vnum rr) ∧
    Rec.get? r .distillate_rate = some (.vnum d) ∧
    isBoolValue (Rec.get? r .success) = true ∧
    isErrValue (Rec.get? r .error) = true ∧
    (Rec.get? r .success = some (.vbool false) →
      Rec.get? r .distillate_purity_light = none ∧
      Rec.get? r .bottoms_purity_heavy = none ∧
      Rec.get? r .condenser_duty_kW = none ∧
      Rec.get? r .reboiler_duty_kW = none ∧
      Rec.get? r .condenser_temp_c = none) := by
  subst hr
  rcases h : eng.column n f rr d with ⟨co, cp, pp, bf, sf, df, bof, cd, rd, cT, gf⟩
  simp only [simulate_distillation, dist_try, dist_extract, h]
  cases co with
  | false =>
    simp [distBase, Rec.update, Rec.set, Rec.get?, List.find?, isBoolValue, isErrValue]
  | true =>
  cases cp with
  | false =>
    simp [distBase, Rec.update, Rec.set, Rec.get?, List.find?, isBoolValue, isErrValue]
  | true =>
  cases pp with
  | false =>
    simp [distBase, Rec.update, Rec.set, Rec.get?, List.find?, isBoolValue, isErrValue]
  | true =>
  cases bf with
  | some msg =>
    simp [distBase, tracebackText, Rec.update, Rec.set, Rec.get?, List.find?,
      isBoolValue, isErrValue]
  | none =>
  cases sf with
  | some msg =>
    simp [distBase, tracebackText, Rec.update, Rec.set, Rec.get?, List.find?,
      isBoolValue, isErrValue]
  | none =>
  cases gf with
  | some msg =>
    simp [distBase, tracebackText, Rec.update, Rec.set, Rec.get?, List.find?,
      isBoolValue, isErrValue]
  | none =>
    simp [distBase, Rec.update, Rec.set, Rec.get?, List.find?,
      isBoolValue, isErrValue]

theorem pfr_handler (eng : Engine) (v t p : ℚ) (msg : String) (tr : List Event)
    (h : pfr_try (eng.pfr v t p) (pfrBase v t p) = (.error msg, tr)) :
    Rec.get? (simulate_pfr eng v t p).1 .success = some (.vbool false) ∧
    Rec.get? (simulate_pfr eng v t p).1 .error = some (.vstr msg) := by
  simp only [simulate_pfr, h]
  simp [pfrBase, Rec.set, Rec.get?, List.find?]

theorem dist_handler (eng : Engine) (n f : ℕ) (rr d : ℚ) (msg : String)
    (tr : List Event)
    (h : dist_try (eng.column n f rr d) (distBase n f rr d) = (.error msg, tr)) :
    Rec.get? (simulate_distillation eng n f rr d).1 .success = some (.vbool false) ∧
    Rec.get? (simulate_distillation eng n f rr d).1 .error = some (.vstr msg) := by
  simp only [simulate_distillation, h]
  simp [distBase, Rec.set, Rec.get?, List.find?]

theorem simulate_pfr_trace (eng : Engine) (v t p : ℚ) :
    (simulate_pfr eng v t p).2 = (pfr_try (eng.pfr v t p) (pfrBase v t p)).2 := by
  rcases h : pfr_try (eng.pfr v t p) (pfrBase v t p) with ⟨e, tr⟩
  cases e <;> simp [simulate_pfr, h]

theorem simulate_dist_trace (eng : Engine) (n f : ℕ) (rr d : ℚ) :
    (simulate_distillation eng n f rr d).2 =
      (dist_try (eng.column n f rr d) (distBase n f rr d)).2 := by
  rcases h : dist_try (eng.column n f rr d) (distBase n f rr d) with ⟨e, tr⟩
  cases e <;> simp [simulate_distillation, h]

theorem pfr_try_trace (o : PfrOutcome) (base : Rec) :
    List.count Event.closeFlowsheet (pfr_try o base).2 = 0 ∧
    List.countP isCreate (pfr_try o base).2 = 1 := by
  rcases o with ⟨co, cp, pp, bf, sf, mf, mfr, tK, dq, pPa, gf⟩
  simp only [pfr_try]
  cases co with
  | false =>
    simp [List.count_cons, List.count_nil, List.countP_cons, List.countP_nil, isCreate]
  | true =>
  cases cp with
  | false =>
    simp [List.count_cons, List.count_nil, List.countP_cons, List.countP_nil, isCreate]
  | true =>
  cases pp with
  | false =>
    simp [List.count_cons, List.count_nil, List.countP_cons, List.countP_nil, isCreate]
  | true =>
  cases bf with
  | some msg =>
    simp [List.count_cons, List.count_nil, List.countP_cons, List.countP_nil, isCreate]
  | none =>
  cases sf with
  | some msg =>
    simp [List.count_cons, List.count_nil, List.countP_cons, List.countP_nil, isCreate]
  | none =>
    simp [List.count_cons, List.count_nil, List.countP_cons, List.countP_nil, isCreate]

theorem dist_try_trace (o : ColumnOutcome) (base : Rec) :
    List.count Event.closeFlowsheet (dist_try o base).2 = 0 ∧
    List.countP isCreate (dist_try o base).2 = 1 := by
  rcases o with ⟨co, cp, pp, bf, sf, df, bof, cd, rd, cT, gf⟩
  simp only [dist_try]
  cases co with
  | false =>
    simp [List.count_cons, List.count_nil, List.countP_cons, List.countP_nil, isCreate]
  | true =>
  cases cp with
  | false =>
    simp [List.count_cons, List.count_nil, List.countP_cons, List.countP_nil, isCreate]
  | true =>
  cases pp with
  | false =>
    simp [List.count_cons, List.count_nil, List.countP_cons, List.countP_nil, isCreate]
  | true =>
  cases bf with
  | some msg =>
    simp [List.count_cons, List.count_nil, List.countP_cons, List.countP_nil, isCreate]
  | none =>
  cases sf with
  | some msg =>
    simp [List.count_cons, List.count_nil, List.countP_cons, List.countP_nil, isCreate]
  | none =>
    simp [List.count_cons, List.count_nil, List.countP_cons, List.countP_nil, isCreate]

theorem cartMap_length {α β γ : Type} (f : α → β → γ) (xs : List α) (ys : List β) :
    (cartMap f xs ys).length = xs.length * ys.length := by
  induction xs with
  | nil => simp [cartMap]
  | cons x xs ih =>
    simp [cartMap, ih]
    ring

theorem mem_cartMap {α β γ : Type} {f : α → β → γ} {xs : List α} {ys : List β}
    {c : γ} : c ∈ cartMap f xs ys ↔ ∃ a ∈ xs, ∃ b ∈ ys, c = f a b := by
  induction xs with
  | nil => simp [cartMap]
  | cons x xs ih =>
    simp only [cartMap, List.mem_append, List.mem_map, List.mem_cons, ih]
    aesop

theorem cartMap_map {α β γ δ : Type} (f : α → β → γ) (g : γ → δ)
    (xs : List α) (ys : List β) :
    (cartMap f xs ys).map g = cartMap (fun a b => g (f a b)) xs ys := by
  induction xs with
  | nil => rfl
  | cons x xs ih =>
    simp [cartMap, ih, List.map_map, Function.comp]

theorem cartMap_congr {α β γ : Type} {f g : α → β → γ} (xs : List α)
    (ys : List β) (h : ∀ a b, f a b = g a b) :
    cartMap f xs ys = cartMap g xs ys := by
  induction xs with
  | nil => rfl
  | cons x xs ih =>
    have hmap : ys.map (f x) = ys.map (g x) :=
      List.map_congr_left (fun b _ => h x b)
    simp [cartMap, ih, hmap]

theorem count_traceCat (ev : Event) (trs : List (List Event))
    (h : ∀ tr ∈ trs, tr.count ev = 0) : (traceCat trs).count ev = 0 := by
  induction trs with
  | nil => simp [traceCat]
  | cons tr rest ih =>
    have h1 : tr.count ev = 0 := h tr (by simp)
    have h2 : (traceCat rest).count ev = 0 :=
      ih (fun x hx => h x (by simp [hx]))
    simp [traceCat, List.count_append, h1, h2]

theorem countP_traceCat (pr : Event → Bool) (trs : List (List Event))
    (h : ∀ tr ∈ trs, tr.countP pr = 1) :
    (traceCat trs).countP pr = trs.length := by
  induction trs with
  | nil => simp [traceCat]
  | cons tr rest ih =>
    have h1 : tr.countP pr = 1 := h tr (by simp)
    have h2 : (traceCat rest).countP pr = rest.length :=
      ih (fun x hx => h x (by simp [hx]))
    simp [traceCat, List.countP_append, h1, h2, Nat.add_comm]

theorem Rec.keys_scrub (r : Rec) : Rec.keys (Rec.scrub r) = Rec.keys r := by
  induction r with
  | nil => rfl
  | cons pr rest ih =>
    obtain ⟨k, v⟩ := pr
    by_cases h : k = Key.error ∨ k = Key.traceback
    · simpa [Rec.scrub, Rec.keys, h] using ih
    · simpa [Rec.scrub, Rec.keys, h] using ih

theorem Rec.get?_scrub (r : Rec) (k : Key) (h1 : k ≠ Key.error)
    (h2 : k ≠ Key.traceback) : Rec.get? (Rec.scrub r) k = Rec.get? r k := by
  induction r with
  | nil => rfl
  | cons pr rest ih =>
    obtain ⟨k2, v2⟩ := pr
    by_cases hc : k2 = Key.error ∨ k2 = Key.traceback
    · have hk : ¬ (k2 = k) := by
        rintro rfl
        rcases hc with hc | hc
        · exact h1 hc
        · exact h2 hc
      simpa [Rec.scrub, Rec.get?, List.find?, hc, hk] using ih
    · by_cases hk : k2 = k
      · subst hk
        simp [Rec.scrub, Rec.get?, List.find?, hc]
      · simpa [Rec.scrub, Rec.get?, List.find?, hc, hk] using ih

theorem pfr_scrub_eq (eng1 eng2 : Engine) (v t p : ℚ)
    (h : PfrOutcome.agrees (eng1.pfr v t p) (eng2.pfr v t p)) :
    Rec.scrub (simulate_pfr eng1 v t p).1 = Rec.scrub (simulate_pfr eng2 v t p).1 := by
  rcases h1 : eng1.pfr v t p with ⟨co1, cp1, pp1, bf1, sf1, mf1, mfr1, tK1, dq1, pPa1, gf1⟩
  rcases h2 : eng2.pfr v t p with ⟨co2, cp2, pp2, bf2, sf2, mf2, mfr2, tK2, dq2, pPa2, gf2⟩
  rw [h1, h2] at h
  simp only [PfrOutcome.agrees] at h
  obtain ⟨e1, e2, e3, e4, e5, e6, e7, e8, e9, e10, e11⟩ := h
  subst e1; subst e2; subst e3; subst e7; subst e8; subst e9; subst e10; subst e11
  simp only [simulate_pfr, pfr_try, pfr_extract, h1, h2]
  cases co1 with
  | false => rfl
  | true =>
  cases cp1 with
  | false => rfl
  | true =>
  cases pp1 with
  | false => rfl
  | true =>
  cases bf1 with
  | some m1 =>
    cases bf2 with
    | some m2 =>
      simp [Rec.scrub, Rec.set, pfrBase]
    | none => simp at e4
  | none =>
  cases bf2 with
  | some m2 => simp at e4
  | none =>
  cases sf1 with
  | some m1 =>
    cases sf2 with
    | some m2 =>
      simp [Rec.scrub, Rec.set, pfrBase]
    | none => simp at e5
  | none =>
  cases sf2 with
  | some m2 => simp at e5
  | none =>
  cases gf1 with
  | some m1 =>
    cases gf2 with
    | some m2 =>
      simp [Rec.scrub, Rec.set, pfrBase]
    | none => simp at e6
  | none =>
  cases gf2 with
  | some m2 => simp at e6
  | none => rfl

theorem dist_scrub_eq (eng1 eng2 : Engine) (n f : ℕ) (rr d : ℚ)
    (h : ColumnOutcome.agrees (eng1.column n f rr d) (eng2.column n f rr d)) :
    Rec.scrub (simulate_distillation eng1 n f rr d).1
      = Rec.scrub (simulate_distillation eng2 n f rr d).1 := by
  rcases h1 : eng1.column n f rr d with ⟨co1, cp1, pp1, bf1, sf1, df1, bof1, cd1, rd1, cT1, gf1⟩
  rcases h2 : eng2.column n f rr d with ⟨co2, cp2, pp2, bf2, sf2, df2, bof2, cd2, rd2, cT2, gf2⟩
  rw [h1, h2] at h
  simp only [ColumnOutcome.agrees] at h
  obtain ⟨e1, e2, e3, e4, e5, e6, e7, e8, e9, e10, e11⟩ := h
  subst e1; subst e2; subst e3; subst e7; subst e8; subst e9; subst e10; subst e11
  simp only [simulate_distillation, dist_try, dist_extract, h1, h2]
  cases co1 with
  | false => rfl
  | true =>
  cases cp1 with
  | false => rfl
  | true =>
  cases pp1 with
  | false => rfl
  | true =>
  cases bf1 with
  | some m1 =>
    cases bf2 with
    | some m2 =>
      simp [Rec.scrub, Rec.set, distBase]
    | none => simp at e4
  | none =>
  cases bf2 with
  | some m2 => simp at e4
  | none =>
  cases sf1 with
  | some m1 =>
    cases sf2 with
    | some m2 =>
      simp [Rec.scrub, Rec.set, distBase]
    | none => simp at e5
  | none =>
  cases sf2 with
  | some m2 => simp at e5
  | none =>
  cases gf1 with
  | some m1 =>
    cases gf2 with
    | some m2 =>
      simp [Rec.scrub, Rec.set, distBase]
    | none => simp at e6
  | none =>
  cases gf2 with
  | some m2 => simp at e6
  | none => rfl

theorem full_results_scrub (e1 e2 : Engine) (h : Engine.agrees e1 e2) :
    (full_results e1).map Rec.scrub = (full_results e2).map Rec.scrub := by
  obtain ⟨hp, hc⟩ := h
  unfold full_results run_pfr_parametric_sweep run_distillation_parametric_sweep
    pfr_sweep dist_sweep
  simp only [List.map_append, cartMap_map]
  rw [cartMap_congr pfrVolumes pfrTemperatures
    (fun v t => pfr_scrub_eq e1 e2 v t 1 (hp v t 1))]
  rw [cartMap_congr distStages distRefluxes
    (fun n rr => dist_scrub_eq e1 e2 n (max 3 (n / 2)) rr 50
      (hc n (max 3 (n / 2)) rr 50))]

theorem map_keys_of_map_scrub (rs1 rs2 : List Rec)
    (h : rs1.map Rec.scrub = rs2.map Rec.scrub) :
    rs1.map Rec.keys = rs2.map Rec.keys := by
  have haux : ∀ rs : List Rec, rs.map Rec.keys = (rs.map Rec.scrub).map Rec.keys := by
    intro rs
    rw [List.map_map]
    symm
    exact List.map_congr_left (fun r _ => by
      simp [Function.comp, Rec.keys_scrub])
  rw [haux rs1, haux rs2, h]

theorem keysUnion_congr (rs1 rs2 : List Rec)
    (h : rs1.map Rec.keys = rs2.map Rec.keys) :
    keysUnion rs1 = keysUnion rs2 := by
  induction rs1 generalizing rs2 with
  | nil =>
    cases rs2 with
    | nil => rfl
    | cons r rs => simp at h
  | cons r rs ih =>
    cases rs2 with
    | nil => simp at h
    | cons r2 rs2 =>
      simp only [List.map_cons, List.cons.injEq] at h
      obtain ⟨h1, h2⟩ := h
      simp [keysUnion, h1, ih rs2 h2]

theorem mem_keysUnion (rs : List Rec) (k : Key) :
    k ∈ keysUnion rs ↔ ∃ r ∈ rs, k ∈ Rec.keys r := by
  induction rs with
  | nil => simp [keysUnion]
  | cons r rest ih =>
    simp only [keysUnion, List.mem_append, ih, List.mem_cons]
    aesop

theorem full_results_length (eng : Engine) : (full_results eng).length = 32 := by
  unfold full_results run_pfr_parametric_sweep run_distillation_parametric_sweep
    pfr_sweep dist_sweep
  rw [List.length_append, cartMap_length, cartMap_length]
  rfl

/-- C1: a full sweep over grids of sizes m and n records exactly m × n
CaseResult records, one per Cartesian-product combination, whatever the
engine does to the individual cases; in particular the hard-coded PFR
sweep yields exactly 16 records, each tagged `case_type = PFR` and each
carrying its own volume/temperature pair in grid order. -/
theorem c1_sweep_one_record_per_combination (eng : Engine)
    (volumes temperatures : List ℚ) (stages : List ℕ) (refluxes : List ℚ) :
    (pfr_sweep eng volumes temperatures).length
        = volumes.length * temperatures.length ∧
    (dist_sweep eng stages refluxes).length
        = stages.length * refluxes.length ∧
    (run_pfr_parametric_sweep eng).length = 16 ∧
    (∀ r ∈ run_pfr_parametric_sweep eng,
      Rec.get? r .case_type = some (.vstr "PFR")) ∧
    (run_pfr_parametric_sweep eng).map
        (fun r => (Rec.get? r .volume_m3, Rec.get? r .temperature_c))
      = cartMap (fun v t => (some (.vnum v), some (.vnum t)))
          pfrVolumes pfrTemperatures := by
  refine ⟨cartMap_length _ _ _, cartMap_length _ _ _, ?_, ?_, ?_⟩
  · unfold run_pfr_parametric_sweep pfr_sweep
    rw [cartMap_length]
    rfl
  · intro r hr
    unfold run_pfr_parametric_sweep pfr_sweep at hr
    rcases mem_cartMap.mp hr with ⟨v, _, t, _, rfl⟩
    exact (pfr_rec_spec eng v t 1 _ rfl).1
  · unfold run_pfr_parametric_sweep pfr_sweep
    rw [cartMap_map]
    refine cartMap_congr _ _ (fun v t => ?_)
    have hsp := pfr_rec_spec eng v t 1 _ rfl
    simp [hsp.2.1, hsp.2.2.1]

/-- C1 witness: on the all-success engine the two hard-coded sweeps
produce 16 records each. -/
theorem c1_witness :
    (run_pfr_parametric_sweep okEngine).length = 16 ∧
    (run_distillation_parametric_sweep okEngine).length = 16 := by
  have hh := c1_sweep_one_record_per_combination okEngine pfrVolumes pfrTemperatures
    distStages distRefluxes
  refine ⟨hh.2.2.1, ?_⟩
  have := hh.2.1
  unfold run_distillation_parametric_sweep
  rw [this]
  rfl

/-- C2: an exception escaping the body of a single case (build or solve)
is caught inside the case runner and converted into a returned record
with `success = false` and the message stored under `error`; the sweep
driver itself is a total function producing one record per combination,
so a failing case never prevents the remaining combinations from being
recorded. -/
theorem c2_case_failure_isolated (eng : Engine) (v t p : ℚ) (n f : ℕ)
    (rr d : ℚ) (msgP msgD : String) (trP trD : List Event)
    (volumes temperatures : List ℚ) (stages : List ℕ) (refluxes : List ℚ) :
    (pfr_try (eng.pfr v t p) (pfrBase v t p) = (.error msgP, trP) →
      Rec.get? (simulate_pfr eng v t p).1 .success = some (.vbool false) ∧
      Rec.get? (simulate_pfr eng v t p).1 .error = some (.vstr msgP)) ∧
    (dist_try (eng.column n f rr d) (distBase n f rr d) = (.error msgD, trD) →
      Rec.get? (simulate_distillation eng n f rr d).1 .success
          = some (.vbool false) ∧
      Rec.get? (simulate_distillation eng n f rr d).1 .error
          = some (.vstr msgD)) ∧
    (pfr_sweep eng volumes temperatures).length
        = volumes.length * temperatures.length ∧
    (dist_sweep eng stages refluxes).length
        = stages.length * refluxes.length :=
  ⟨fun hh => pfr_handler eng v t p msgP trP hh,
   fun hh => dist_handler eng n f rr d msgD trD hh,
   cartMap_length _ _ _, cartMap_length _ _ _⟩

/-- C2 witness: on an engine whose build phase raises for every case, the
returned records carry `success = false` and the exception text. -/
theorem c2_witness :
    Rec.get? (simulate_pfr raiseEngine 1 100 1).1 .success
        = some (.vbool false) ∧
    Rec.get? (simulate_pfr raiseEngine 1 100 1).1 .error
        = some (.vstr "COM error 0x80004005") ∧
    Rec.get? (simulate_distillation raiseEngine 8 4 2 50).1 .success
        = some (.vbool false) ∧
    Rec.get? (simulate_distillation raiseEngine 8 4 2 50).1 .error
        = some (.vstr "solver not ready") := by
  have hh := c2_case_failure_isolated raiseEngine 1 100 1 8 4 2 50
    "COM error 0x80004005" "solver not ready"
    [.createFlowsheet true] [.createFlowsheet true]
    pfrVolumes pfrTemperatures distStages distRefluxes
  obtain ⟨h1, h2, _, _⟩ := hh
  obtain ⟨a1, a2⟩ := h1 rfl
  obtain ⟨b1, b2⟩ := h2 rfl
  exact ⟨a1, a2, b1, b2⟩

/-- C3 counterexample: a failed PFR case (flowsheet creation fails)
returns a record with `success = false` in which the case-type-specific
output fields are missing keys, not keys holding a default value. -/
theorem c3_counterexample :
    Rec.get? (simulate_pfr createFailEngine 1 100 1).1 .success
        = some (.vbool false) ∧
    Rec.get? (simulate_pfr createFailEngine 1 100 1).1 .conversion = none ∧
    Rec.get? (simulate_pfr createFailEngine 1 100 1).1 .heat_duty_kW = none := by
  decide

/-- C3 amended: a record with `success = false` has no case-type-specific
output keys at all (they are missing, not defaulted); the input-parameter
keys and the `error` key are present.  Schema uniformity appears only in
the CSV, whose writer emits an empty cell for an absent field
(`Value.toCell Value.vnone = ""`). -/
theorem c3_failed_record_schema (eng : Engine) (v t p : ℚ) (n f : ℕ)
    (rr d : ℚ) :
    (Rec.get? (simulate_pfr eng v t p).1 .success = some (.vbool false) →
      Rec.get? (simulate_pfr eng v t p).1 .conversion = none ∧
      Rec.get? (simulate_pfr eng v t p).1 .outlet_B_flow_mol_s = none ∧
      Rec.get? (simulate_pfr eng v t p).1 .outlet_temperature_c = none ∧
      Rec.get? (simulate_pfr eng v t p).1 .heat_duty_kW = none ∧
      Rec.get? (simulate_pfr eng v t p).1 .outlet_pressure_bar = none ∧
      Rec.get? (simulate_pfr eng v t p).1 .volume_m3 = some (.vnum v) ∧
      Rec.get? (simulate_pfr eng v t p).1 .temperature_c = some (.vnum t) ∧
      isErrValue (Rec.get? (simulate_pfr eng v t p).1 .error) = true) ∧
    (Rec.get? (simulate_distillation eng n f rr d).1 .success
        = some (.vbool false) →
      Rec.get? (simulate_distillation eng n f rr d).1 .distillate_purity_light
          = none ∧
      Rec.get? (simulate_distillation eng n f rr d).1 .bottoms_purity_heavy
          = none ∧
      Rec.get? (simulate_distillation eng n f rr d).1 .condenser_duty_kW = none ∧
      Rec.get? (simulate_distillation eng n f rr d).1 .reboiler_duty_kW = none ∧
      Rec.get? (simulate_distillation eng n f rr d).1 .condenser_temp_c = none ∧
      Rec.get? (simulate_distillation eng n f rr d).1 .n_stages
          = some (.vint n) ∧
      isErrValue (Rec.get? (simulate_distillation eng n f rr d).1 .error)
          = true) ∧
    Value.toCell Value.vnone = "" := by
  have hp := pfr_rec_spec eng v t p _ rfl
  have hd := dist_rec_spec eng n f rr d _ rfl
  refine ⟨fun hs => ?_, fun hs => ?_, rfl⟩
  · obtain ⟨g1, g2, g3, g4, g5⟩ := hp.2.2.2.2.2.2.1 hs
    exact ⟨g1, g2, g3, g4, g5, hp.2.1, hp.2.2.1, hp.2.2.2.2.2.1⟩
  · obtain ⟨g1, g2, g3, g4, g5⟩ := hd.2.2.2.2.2.2.2 hs
    exact ⟨g1, g2, g3, g4, g5, hd.2.1, hd.2.2.2.2.2.2.1⟩

/-- C3 witness: the amended schema facts evaluated on a concrete engine
whose flowsheet creation fails. -/
theorem c3_witness :
    Rec.get? (simulate_pfr createFailEngine 2 80 1).1 .conversion = none ∧
    Rec.get? (simulate_pfr createFailEngine 2 80 1).1 .volume_m3
        = some (.vnum 2) ∧
    Rec.get? (simulate_distillation createFailEngine 8 4 2 50).1
        .distillate_purity_light = none := by
  have hh := c3_failed_record_schema createFailEngine 2 80 1 8 4 2 50
  obtain ⟨h1, h2, _⟩ := hh
  obtain ⟨a1, _, _, _, _, a6, _, _⟩ := h1 (by decide)
  obtain ⟨b1, _⟩ := h2 (by decide)
  exact ⟨a1, a6, b1⟩

/-- C4 counterexample: on a fully successful case the flowsheet is built
(a successful `CreateFlowsheet` call is in the trace) yet the number of
close/release calls in the trace is 0, not 1: the script never closes a
flowsheet. -/
theorem c4_counterexample :
    Event.createFlowsheet true ∈ (simulate_pfr okEngine 1 100 1).2 ∧
    List.count Event.closeFlowsheet (simulate_pfr okEngine 1 100 1).2 = 0 := by
  decide

/-- C4 amended: no close/release call ever occurs: over a whole run the
event trace contains exactly one `CreateFlowsheet` call per case (32 in
all) and zero close calls, on every engine; the previous flowsheet is
simply abandoned when the next case replaces it. -/
theorem c4_never_closes (eng : Engine) :
    List.count Event.closeFlowsheet (full_trace eng) = 0 ∧
    List.countP isCreate (full_trace eng) = 32 := by
  have hpfr0 : ∀ tr ∈ cartMap (fun v t => (simulate_pfr eng v t 1).2)
      pfrVolumes pfrTemperatures, tr.count Event.closeFlowsheet = 0 := by
    intro tr htr
    rcases mem_cartMap.mp htr with ⟨v, _, t, _, rfl⟩
    rw [simulate_pfr_trace]
    exact (pfr_try_trace _ _).1
  have hpfr1 : ∀ tr ∈ cartMap (fun v t => (simulate_pfr eng v t 1).2)
      pfrVolumes pfrTemperatures, tr.countP isCreate = 1 := by
    intro tr htr
    rcases mem_cartMap.mp htr with ⟨v, _, t, _, rfl⟩
    rw [simulate_pfr_trace]
    exact (pfr_try_trace _ _).2
  have hdist0 : ∀ tr ∈ cartMap
      (fun n rr => (simulate_distillation eng n (max 3 (n / 2)) rr 50).2)
      distStages distRefluxes, tr.count Event.closeFlowsheet = 0 := by
    intro tr htr
    rcases mem_cartMap.mp htr with ⟨n, _, rr, _, rfl⟩
    rw [simulate_dist_trace]
    exact (dist_try_trace _ _).1
  have hdist1 : ∀ tr ∈ cartMap
      (fun n rr => (simulate_distillation eng n (max 3 (n / 2)) rr 50).2)
      distStages distRefluxes, tr.countP isCreate = 1 := by
    intro tr htr
    rcases mem_cartMap.mp htr with ⟨n, _, rr, _, rfl⟩
    rw [simulate_dist_trace]
    exact (dist_try_trace _ _).2
  constructor
  · unfold full_trace
    rw [List.count_append, count_traceCat _ _ hpfr0, count_traceCat _ _ hdist0]
  · unfold full_trace
    rw [List.countP_append, countP_traceCat _ _ hpfr1,
      countP_traceCat _ _ hdist1, cartMap_length, cartMap_length]
    rfl

/-- C5: on a non-empty collection, `export_results` writes a CSV whose
header is the lexicographically sorted union of the field names occurring
in any record, followed by one row per record in collection order, with
fields absent from a record written as empty cells. -/
theorem c5_export_sorted_union (rs : List Rec) (h : rs ≠ []) :
    ∃ c : Csv, export_results rs = some c ∧
      List.Sorted (fun a b : String => a ≤ b) (c.header.map Key.name) ∧
      (∀ k : Key, k ∈ c.header ↔ ∃ r ∈ rs, k ∈ Rec.keys r) ∧
      c.rows.length = rs.length ∧
      c.rows = rs.map (fun r =>
        c.header.map (fun k => Value.toCell ((Rec.get? r k).getD .vnone))) := by
  have hne : rs.isEmpty = false := by
    cases rs with
    | nil => exact absurd rfl h
    | cons a l => rfl
  refine ⟨⟨List.insertionSort keyLe (collectKeys rs),
    rs.map (fun r => (List.insertionSort keyLe (collectKeys rs)).map
      (fun k => Value.toCell ((Rec.get? r k).getD .vnone)))⟩, ?_, ?_, ?_, ?_, rfl⟩
  · simp [export_results, hne]
  · have hs : List.Sorted keyLe (List.insertionSort keyLe (collectKeys rs)) :=
      List.sorted_insertionSort keyLe (collectKeys rs)
    exact List.Pairwise.map Key.name (fun a b hab => hab) hs
  · intro k
    rw [List.Perm.mem_iff (List.perm_insertionSort keyLe (collectKeys rs))]
    unfold collectKeys
    rw [List.mem_dedup]
    exact mem_keysUnion rs k
  · simp

/-- C5 witness: the export contract evaluated on a concrete one-record
collection. -/
theorem c5_witness :
    ∃ c : Csv, export_results [pfrBase 1 100 1] = some c ∧
      List.Sorted (fun a b : String => a ≤ b) (c.header.map Key.name) ∧
      (∀ k : Key, k ∈ c.header ↔ ∃ r ∈ [pfrBase 1 100 1], k ∈ Rec.keys r) ∧
      c.rows.length = [pfrBase 1 100 1].length ∧
      c.rows = [pfrBase 1 100 1].map (fun r =>
        c.header.map (fun k => Value.toCell ((Rec.get? r k).getD .vnone))) :=
  c5_export_sorted_union [pfrBase 1 100 1] (by simp)

/-- C6: the script exits with code 0 exactly when setup succeeds (the
assemblies load and the automation session is created), independently of
how the engine treats the individual cases; when the exit code is 0 the
full 32-combination sweep was recorded and exported. -/
theorem c6_exit_code (s : Session) (eng : Engine) :
    (scriptExitCode s eng = 0 ↔
      s.assembliesOk = true ∧ s.automationInitFail = none) ∧
    (∀ eng2 : Engine, scriptExitCode s eng = scriptExitCode s eng2) ∧
    (scriptExitCode s eng = 0 →
      main_body s eng
        = .ok (full_results eng, export_results (full_results eng)) ∧
      (full_results eng).length = 32) := by
  obtain ⟨ao, af⟩ := s
  cases ao with
  | false =>
    cases af <;> simp [scriptExitCode, mainExitCode, main_body]
  | true =>
    cases af with
    | none =>
      simp [scriptExitCode, mainExitCode, main_body, full_results_length]
    | some msg =>
      simp [scriptExitCode, mainExitCode, main_body]

/-- C6 witness: exit code 0 on successful setup, non-zero when the
automation session cannot be created, both on the all-success engine. -/
theorem c6_witness :
    scriptExitCode ⟨true, none⟩ okEngine = 0 ∧
    scriptExitCode ⟨true, some "Automation3 failed"⟩ okEngine ≠ 0 := by
  have h1 := c6_exit_code ⟨true, none⟩ okEngine
  have h2 := c6_exit_code ⟨true, some "Automation3 failed"⟩ okEngine
  refine ⟨h1.1.mpr ⟨rfl, rfl⟩, fun hz => ?_⟩
  obtain ⟨_, hcontra⟩ := h2.1.mp hz
  simp at hcontra

/-- C7 counterexample: a distillation-case record carries the tag
`Distillation` under `case_type`, not the tag `Column` the claim
states. -/
theorem c7_counterexample :
    Rec.get? (simulate_distillation okEngine 10 5 2 50).1 .case_type
        = some (.vstr "Distillation") ∧
    Rec.get? (simulate_distillation okEngine 10 5 2 50).1 .case_type
        ≠ some (.vstr "Column") := by
  decide

/-- C7 amended: every record carries `case_type` with value `PFR` for
reactor cases and `Distillation` for column cases, together with its
input parameters, a boolean `success` field and an `error` field holding
`None` or a message string. -/
theorem c7_record_tags (eng : Engine) (v t p : ℚ) (n f : ℕ) (rr d : ℚ) :
    Rec.get? (simulate_pfr eng v t p).1 .case_type = some (.vstr "PFR") ∧
    Rec.get? (simulate_distillation eng n f rr d).1 .case_type
        = some (.vstr "Distillation") ∧
    Rec.get? (simulate_pfr eng v t p).1 .volume_m3 = some (.vnum v) ∧
    Rec.get? (simulate_pfr eng v t p).1 .temperature_c = some (.vnum t) ∧
    Rec.get? (simulate_pfr eng v t p).1 .pressure_bar = some (.vnum p) ∧
    Rec.get? (simulate_distillation eng n f rr d).1 .n_stages
        = some (.vint n) ∧
    Rec.get? (simulate_distillation eng n f rr d).1 .feed_stage
        = some (.vint f) ∧
    Rec.get? (simulate_distillation eng n f rr d).1 .reflux_r
        = some (.vnum rr) ∧
    Rec.get? (simulate_distillation eng n f rr d).1 .distillate_rate
        = some (.vnum d) ∧
    isBoolValue (Rec.get? (simulate_pfr eng v t p).1 .success) = true ∧
    isBoolValue (Rec.get? (simulate_distillation eng n f rr d).1 .success)
        = true ∧
    isErrValue (Rec.get? (simulate_pfr eng v t p).1 .error) = true ∧
    isErrValue (Rec.get? (simulate_distillation eng n f rr d).1 .error)
        = true := by
  have hp := pfr_rec_spec eng v t p _ rfl
  have hd := dist_rec_spec eng n f rr d _ rfl
  exact ⟨hp.1, hd.1, hp.2.1, hp.2.2.1, hp.2.2.2.1, hd.2.1, hd.2.2.1,
    hd.2.2.2.1, hd.2.2.2.2.1, hp.2.2.2.2.1, hd.2.2.2.2.2.1,
    hp.2.2.2.2.2.1, hd.2.2.2.2.2.2.1⟩

/-- C8: two deterministic engines with the same behaviour up to exception
text yield runs whose CSVs have the same number of rows and the same
header, and whose records agree position by position on every field other
than `error` and `traceback`. -/
theorem c8_rerun_deterministic (e1 e2 : Engine) (h : Engine.agrees e1 e2) :
    ∃ c1 c2 : Csv,
      export_results (full_results e1) = some c1 ∧
      export_results (full_results e2) = some c2 ∧
      c1.rows.length = c2.rows.length ∧
      c1.header = c2.header ∧
      ∀ (i : ℕ) (k : Key), k ≠ Key.error → k ≠ Key.traceback →
        Option.map (fun r => Rec.get? r k) ((full_results e1)[i]?)
          = Option.map (fun r => Rec.get? r k) ((full_results e2)[i]?) := by
  have hscrub := full_results_scrub e1 e2 h
  have hkeys := map_keys_of_map_scrub _ _ hscrub
  have hlen : (full_results e1).length = (full_results e2).length := by
    rw [full_results_length, full_results_length]
  have hne1 : (full_results e1).isEmpty = false := by
    have h32 := full_results_length e1
    cases hli : full_results e1 with
    | nil => rw [hli] at h32; simp at h32
    | cons a l => rfl
  have hne2 : (full_results e2).isEmpty = false := by
    have h32 := full_results_length e2
    cases hli : full_results e2 with
    | nil => rw [hli] at h32; simp at h32
    | cons a l => rfl
  have hcoll : collectKeys (full_results e1) = collectKeys (full_results e2) := by
    unfold collectKeys
    rw [keysUnion_congr _ _ hkeys]
  refine ⟨⟨List.insertionSort keyLe (collectKeys (full_results e1)),
      (full_results e1).map (fun r =>
        (List.insertionSort keyLe (collectKeys (full_results e1))).map
          (fun k => Value.toCell ((Rec.get? r k).getD .vnone)))⟩,
    ⟨List.insertionSort keyLe (collectKeys (full_results e2)),
      (full_results e2).map (fun r =>
        (List.insertionSort keyLe (collectKeys (full_results e2))).map
          (fun k => Value.toCell ((Rec.get? r k).getD .vnone)))⟩,
    ?_, ?_, ?_, ?_, ?_⟩
  · simp [export_results, hne1]
  · simp [export_results, hne2]
  · simp [hlen]
  · simp [hcoll]
  · intro i k hk1 hk2
    have hi : Option.map Rec.scrub ((full_results e1)[i]?)
        = Option.map Rec.scrub ((full_results e2)[i]?) := by
      rw [← List.getElem?_map, ← List.getElem?_map, hscrub]
    cases ho1 : (full_results e1)[i]? with
    | none =>
      cases ho2 : (full_results e2)[i]? with
      | none => rfl
      | some r2 =>
        rw [ho1, ho2] at hi
        simp at hi
    | some r1 =>
      cases ho2 : (full_results e2)[i]? with
      | none =>
        rw [ho1, ho2] at hi
        simp at hi
      | some r2 =>
        rw [ho1, ho2] at hi
        simp only [Option.map_some'] at hi ⊢
        have hsc : Rec.scrub r1 = Rec.scrub r2 := Option.some.inj hi
        rw [← Rec.get?_scrub r1 k hk1 hk2, ← Rec.get?_scrub r2 k hk1 hk2, hsc]

/-- C8 witness: two engines that fail every build with different
exception texts produce runs agreeing on row count, header and all
non-error fields. -/
theorem c8_witness :
    ∃ c1 c2 : Csv,
      export_results (full_results raiseEngine) = some c1 ∧
      export_results (full_results raiseEngine2) = some c2 ∧
      c1.rows.length = c2.rows.length ∧
      c1.header = c2.header ∧
      ∀ (i : ℕ) (k : Key), k ≠ Key.error → k ≠ Key.traceback →
        Option.map (fun r => Rec.get? r k) ((full_results raiseEngine)[i]?)
          = Option.map (fun r => Rec.get? r k)
              ((full_results raiseEngine2)[i]?) :=
  c8_rerun_deterministic raiseEngine raiseEngine2
    ⟨fun _ _ _ => ⟨rfl, rfl, rfl, rfl, rfl, rfl, rfl, rfl, rfl, rfl, rfl⟩,
     fun _ _ _ _ => ⟨rfl, rfl, rfl, rfl, rfl, rfl, rfl, rfl, rfl, rfl, rfl⟩⟩

/-- C9: every successful PFR record reports the hard-coded conversion
0.5, independent of the swept parameters and of every engine getter
value. -/
theorem c9_conversion_constant (eng : Engine) (v t p : ℚ)
    (h : Rec.get? (simulate_pfr eng v t p).1 .success = some (.vbool true)) :
    Rec.get? (simulate_pfr eng v t p).1 .conversion = some (.vnum (1/2)) :=
  (pfr_rec_spec eng v t p _ rfl).2.2.2.2.2.2.2 h

/-- C9 witness: the constant conversion on a concrete successful case. -/
theorem c9_witness :
    Rec.get? (simulate_pfr okEngine 5 150 1).1 .success = some (.vbool true) ∧
    Rec.get? (simulate_pfr okEngine 5 150 1).1 .conversion
        = some (.vnum (1/2)) :=
  ⟨by decide, c9_conversion_constant okEngine 5 150 1 (by decide)⟩

/-- C10: with an empty result collection, export returns without writing:
no CSV is produced and the file previously at the output path is left
unchanged. -/
theorem c10_empty_collection_no_write (prev : Option Csv) :
    export_results ([] : List Rec) = none ∧ export_to_file [] prev = prev :=
  ⟨rfl, rfl⟩

end Screening
